import Mathlib

/-
Verification of the configuration persistence subsystem of the CLI framework
(`src/cli/config.py`): the JSON document store (dotted-path `get`/`set`,
`deep_merge`), the atomic writer (`JsonConfigProvider._save_to_file`), the
corruption recovery path (`_attempt_recovery`), the stale-lock policy
(`FileLock._is_stale_lock`), lock release (`FileLock.release`), and the
provider mutation operations (`update`, `_load`).

Python dictionaries are modelled as insertion-ordered association lists with
distinct keys; JSON values as a mutual inductive family.  OS calls that can
fail (stat, read, kill, write, fsync, rename, unlink) are modelled by
explicit failure oracles threaded through the embedded functions, so each
embedded function mirrors the source's `try`/`except` control flow.
-/

set_option autoImplicit false

namespace CliConfig

mutual
/-- JSON value as stored in the in-memory configuration document.  Python
`dict`s are `JObj` (insertion-ordered assoc list), `list`s are `JArr`.
Numbers are modelled by `Int`; floats do not occur in the claims. -/
inductive JVal where
  | null : JVal
  | bool : Bool → JVal
  | num  : Int → JVal
  | str  : String → JVal
  | arr  : JArr → JVal
  | obj  : JObj → JVal

inductive JArr where
  | nil  : JArr
  | cons : JVal → JArr → JArr

inductive JObj where
  | nil  : JObj
  | cons : String → JVal → JObj → JObj
end

deriving instance DecidableEq for JVal, JArr, JObj

/-- Python `key in d` / `d[key]` read: first entry with the given key. -/
def objLookup : JObj → String → Option JVal
  | .nil, _ => none
  | .cons k v tl, key => if k = key then some v else objLookup tl key

/-- Python `d[key] = v`: replace the value in place if the key is present
(keeping its position, as Python dicts do), otherwise append at the end. -/
def objInsert : JObj → String → JVal → JObj
  | .nil, key, v => .cons key v .nil
  | .cons k w tl, key, v =>
    if k = key then .cons k v tl else .cons k w (objInsert tl key v)

def objHasKey (o : JObj) (key : String) : Bool :=
  (objLookup o key).isSome

mutual
/-- Well-formedness of a document: every object, at every depth, has
pairwise distinct keys.  Python dictionaries satisfy this by construction. -/
def wfV : JVal → Bool
  | .null => true
  | .bool _ => true
  | .num _ => true
  | .str _ => true
  | .arr a => wfA a
  | .obj o => wfO o

def wfA : JArr → Bool
  | .nil => true
  | .cons h t => wfV h && wfA t

def wfO : JObj → Bool
  | .nil => true
  | .cons k v tl => !objHasKey tl k && wfV v && wfO tl
end

mutual
/-- Source: `deep_merge` (config.py lines 364-374).  `result` starts as a
deep copy of `base`; for each `key, value` of `updates`, the loop body
(`deepMergeKey`) merges recursively when both sides hold dicts at `key`
and otherwise lets `updates` win wholesale.  Deep copies are identity on
values in this model. -/
def deepMerge : JObj → JObj → JObj
  | base, .nil => base
  | base, .cons k v tl => deepMerge (deepMergeKey base k v) tl

/-- One iteration of the `deep_merge` loop: `result[key] = deep_merge(
result[key], value)` when both are dicts, else `result[key] =
copy.deepcopy(value)`. -/
def deepMergeKey (base : JObj) (k : String) : JVal → JObj
  | .obj vo =>
    match objLookup base k with
    | some (.obj bo) => objInsert base k (.obj (deepMerge bo vo))
    | _ => objInsert base k (.obj vo)
  | v => objInsert base k v
end

/-- Every entry `(k, v)` of the first object looks up to exactly `v` in the
second object.  Used to state the deep-merge self-absorption lemma. -/
def entriesIn : JObj → JObj → Bool
  | .nil, _ => true
  | .cons k v tl, base =>
    (objLookup base k == some v) && entriesIn tl base

/-- Python `str.split('.')` on the character list of the key. -/
def splitDots : List Char → List (List Char)
  | [] => [[]]
  | c :: cs =>
    if c = '.' then [] :: splitDots cs
    else
      match splitDots cs with
      | h :: t => (c :: h) :: t
      | [] => [[c]]

def splitKey (key : String) : List String :=
  (splitDots key.data).map (fun cs => String.mk cs)

/-- Split a nonempty list of path segments into `parts[:-1]` and
`parts[-1]`, as the Python code indexes them. -/
def initLast : List String → List String × String
  | [] => ([], "")
  | [x] => ([], x)
  | x :: y :: t =>
    let r := initLast (y :: t)
    (x :: r.1, r.2)

/-- Loop body of `JsonConfigProvider.get` (config.py lines 535-548): descend
through `parts[:-1]`; any missing segment or non-dict intermediate returns
the default; finally `config.get(parts[-1], default)`. -/
def getGo : JVal → List String → String → JVal → JVal
  | c, [], last, dflt =>
    match c with
    | .obj o => (objLookup o last).getD dflt
    | _ => dflt
  | c, p :: ps, last, dflt =>
    match c with
    | .obj o =>
      match objLookup o p with
      | some v => getGo v ps last dflt
      | none => dflt
    | _ => dflt

/-- Source: `JsonConfigProvider.get` (config.py lines 535-548). -/
def configGet (doc : JObj) (key : String) (dflt : JVal) : JVal :=
  let il := initLast (splitKey key)
  getGo (.obj doc) il.1 il.2 dflt

/-- Loop body of `JsonConfigProvider.set` (config.py lines 550-566): descend
through `parts[:-1]`, creating `\x7b\x7d` for missing segments and
overwriting non-dict intermediates with a fresh empty dict; finally
`config[parts[-1]] = value`. -/
def setGo : JObj → List String → String → JVal → JObj
  | o, [], last, v => objInsert o last v
  | o, p :: ps, last, v =>
    match objLookup o p with
    | some (.obj sub) => objInsert o p (.obj (setGo sub ps last v))
    | _ => objInsert o p (.obj (setGo .nil ps last v))

/-- Source: `JsonConfigProvider.set` (config.py lines 550-566). -/
def configSet (doc : JObj) (key : String) (v : JVal) : JObj :=
  let il := initLast (splitKey key)
  setGo doc il.1 il.2 v

/-- Spec-side path descent, written from the spec's words for claim C7:
"split key on `.`, descend the mapping; any missing segment or any
intermediate value that is not itself a mapping short-circuits to
`default`".  Compared with the source-derived `configGet` by refinement. -/
def specPathLookup : JVal → List String → Option JVal
  | v, [] => some v
  | .obj o, p :: ps =>
    match objLookup o p with
    | some v => specPathLookup v ps
    | none => none
  | _, _ :: _ => none

mutual
/-- Python `==` on configuration values: dict comparison ignores insertion
order (equal size and every key of the left side maps to an equal value on
the right); list comparison is positional. -/
def pyEqV : JVal → JVal → Bool
  | .null, .null => true
  | .bool a, .bool b => a == b
  | .num a, .num b => a == b
  | .str a, .str b => a == b
  | .arr a, .arr b => pyEqA a b
  | .obj a, .obj b => objLen a == objLen b && pyEqSub a b
  | _, _ => false

def pyEqA : JArr → JArr → Bool
  | .nil, .nil => true
  | .cons x xs, .cons y ys => pyEqV x y && pyEqA xs ys
  | _, _ => false

def pyEqSub : JObj → JObj → Bool
  | .nil, _ => true
  | .cons k v tl, b =>
    (match objLookup b k with
     | some w => pyEqV v w
     | none => false) && pyEqSub tl b

def objLen : JObj → Nat
  | .nil => 0
  | .cons _ _ tl => objLen tl + 1
end

/-- Boolean lexicographic comparison of strings by code point, matching
Python `<` on `str` as invoked by `sorted` for `sort_keys=True`. -/
def charsLt : List Char → List Char → Bool
  | _, [] => false
  | [], _ :: _ => true
  | a :: as, b :: bs =>
    if a < b then true else if b < a then false else charsLt as bs

def strLt (a b : String) : Bool :=
  charsLt a.data b.data

/-- Insert an entry into a key-sorted object, keeping ascending key order. -/
def objSortInsert (k : String) (v : JVal) : JObj → JObj
  | .nil => .cons k v .nil
  | .cons k2 v2 t =>
    if strLt k k2 then .cons k v (.cons k2 v2 t)
    else .cons k2 v2 (objSortInsert k v t)

mutual
/-- Recursively sort every object of a value by key.  `json.dump` with
`sort_keys=True` sorts each dict as it serializes; pre-sorting the whole
tree and then dumping without sorting produces the same bytes. -/
def sortedV : JVal → JVal
  | .null => .null
  | .bool b => .bool b
  | .num n => .num n
  | .str s => .str s
  | .arr a => .arr (sortedA a)
  | .obj o => .obj (sortedO o)

def sortedA : JArr → JArr
  | .nil => .nil
  | .cons h t => .cons (sortedV h) (sortedA t)

def sortedO : JObj → JObj
  | .nil => .nil
  | .cons k v t => objSortInsert k (sortedV v) (sortedO t)
end

def hexDigit (n : Nat) : Char :=
  if n < 10 then Char.ofNat (48 + n) else Char.ofNat (87 + n)

def esc4 (n : Nat) : String :=
  String.mk [hexDigit ((n / 4096) % 16), hexDigit ((n / 256) % 16),
             hexDigit ((n / 16) % 16), hexDigit (n % 16)]

/-- JSON string escaping as Python `json.dump` with `ensure_ascii=False`
performs it: quote, backslash and control characters are escaped, all other
characters pass through verbatim. -/
def escChar (c : Char) : String :=
  if c = '"' then "\\\""
  else if c = '\\' then "\\\\"
  else if c = '\n' then "\\n"
  else if c = '\t' then "\\t"
  else if c = '\r' then "\\r"
  else if c = '\x08' then "\\b"
  else if c = '\x0c' then "\\f"
  else if c.toNat < 32 then "\\u" ++ esc4 c.toNat
  else String.singleton c

def escString (s : String) : String :=
  "\"" ++ String.join (s.data.map escChar) ++ "\""

/-- Indentation produced by `json.dump(..., indent=2)` at nesting level
`lvl`. -/
def indStr (lvl : Nat) : String :=
  String.mk (List.replicate (2 * lvl) ' ')

mutual
/-- Serialization of a (pre-sorted) value exactly as
`json.dump(config, f, indent=2, ensure_ascii=False, sort_keys=True)`
writes it (config.py line 519): named separators become `",\n"` and
`": "`, each element on its own indented line, and no trailing newline
after the closing bracket. -/
def pyDumpV (lvl : Nat) : JVal → String
  | .null => "null"
  | .bool b => if b then "true" else "false"
  | .num n => toString n
  | .str s => escString s
  | .arr .nil => "[]"
  | .arr (.cons h t) =>
    "[\n" ++ pyDumpItems (lvl + 1) (.cons h t) ++ "\n" ++ indStr lvl ++ "]"
  | .obj .nil => "\x7b\x7d"
  | .obj (.cons k v t) =>
    "\x7b\n" ++ pyDumpEntries (lvl + 1) (.cons k v t) ++ "\n" ++
      indStr lvl ++ "\x7d"

/-- Array elements, each on its own indented line, joined by `",\n"`. -/
def pyDumpItems (lvl : Nat) : JArr → String
  | .nil => ""
  | .cons h .nil => indStr lvl ++ pyDumpV lvl h
  | .cons h (.cons h2 t2) =>
    indStr lvl ++ pyDumpV lvl h ++ ",\n" ++ pyDumpItems lvl (.cons h2 t2)

/-- Object entries `"key": value`, each on its own indented line, joined
by `",\n"`. -/
def pyDumpEntries (lvl : Nat) : JObj → String
  | .nil => ""
  | .cons k v .nil => indStr lvl ++ escString k ++ ": " ++ pyDumpV lvl v
  | .cons k v (.cons k2 v2 t2) =>
    indStr lvl ++ escString k ++ ": " ++ pyDumpV lvl v ++ ",\n" ++
      pyDumpEntries lvl (.cons k2 v2 t2)
end

/-- Bytes (as a UTF-8 string) that `_save_to_file` writes for a document:
`json.dump` of the recursively key-sorted document at indent level 0. -/
def pyDump (doc : JObj) : String :=
  pyDumpV 0 (.obj (sortedO doc))

/-- Observable file-system state around one config file: content of the
destination `path` (`none` when absent), and whether our temporary file
exists on disk.  The destination is tracked by content because the atomic
rename replaces it wholesale; the temp file is tracked by existence only,
since no claim observes its content (after a mid-write failure it holds
an arbitrary prefix of the dump). -/
structure Fs where
  dest : Option String
  temp : Bool
deriving DecidableEq

/-- Failure points inside `_save_to_file` (config.py lines 506-533):
`tempfile.mkstemp` (line 511, outside the `try`), `json.dump` into the
temp file (line 519), `os.fsync` (line 521), `os.replace` (line 523). -/
inductive SaveStep where
  | atMkstemp
  | atWrite
  | atFsync
  | atReplace
deriving DecidableEq

/-- How one call to `_save_to_file` terminates: normal return, a
`ConfigValidationError` from `_validate_schema` (line 508), a
`ConfigIOError` raised by the `except` handler (line 533), or a plain
`OSError` escaping from `mkstemp`, which sits outside the `try` block. -/
inductive SaveOutcome where
  | okRes
  | errValid
  | errCfgWrite
  | errOsRaw
deriving DecidableEq

/-- Source: `JsonConfigProvider._save_to_file` (config.py lines 506-533).
Validate first; create the temp file; write, flush, fsync; atomically
rename over `path`.  Any exception inside the `try` runs the handler at
lines 527-533, which only *attempts* `os.unlink` on the temp file and
swallows `OSError`/`IOError` from it (`cleanup_err` is merely logged), and
then raises `ConfigIOError` regardless; the `cleanupFails` oracle says
whether that best-effort unlink itself fails, in which case the temp file
survives.  `os.replace` is atomic, so the destination is never left
partially written. -/
def saveToFile (valid : JVal → Bool) (doc : JObj) (fs : Fs)
    (failAt : Option SaveStep) (cleanupFails : Bool) : Fs × SaveOutcome :=
  if valid (.obj doc) = false then (fs, .errValid)
  else if failAt = some .atMkstemp then (fs, .errOsRaw)
  else
    -- temp file now exists (initially empty)
    if failAt = some .atWrite then
      (⟨fs.dest, cleanupFails⟩, .errCfgWrite)
    else if failAt = some .atFsync then
      (⟨fs.dest, cleanupFails⟩, .errCfgWrite)
    else if failAt = some .atReplace then
      (⟨fs.dest, cleanupFails⟩, .errCfgWrite)
    else
      (⟨some (pyDump doc), false⟩, .okRes)

/-- Result of `_attempt_recovery`: whether `ConfigError` was raised,
whether the `.corrupt.<ts>` backup was created, the file-system state
afterwards, and whether the on-disk file was reset to defaults. -/
structure RecovRes where
  raisedCfgErr : Bool
  backupMade : Bool
  fsAfter : Fs
  resetDone : Bool
deriving DecidableEq

/-- Source: `JsonConfigProvider._attempt_recovery` (config.py lines
485-504).  One `try` block encloses the backup copy, the validation of the
in-memory defaults, and the atomic write; the `except Exception` handler
(line 502) re-raises everything as `ConfigError`.  `cur` is `self._config`;
`cur = JObj.nil` is Python-falsy, taking the "no default config" branch. -/
def attemptRecovery (valid : JVal → Bool) (cur : JObj) (fs : Fs)
    (origExists : Bool) (copyFails : Bool)
    (saveFailAt : Option SaveStep) (saveCleanupFails : Bool) : RecovRes :=
  if origExists && copyFails then
    -- shutil.copy raised; caught at line 502, ConfigError raised
    ⟨true, false, fs, false⟩
  else
    let backup := origExists
    if cur = .nil then
      -- "No default config available for recovery": log only
      ⟨false, backup, fs, false⟩
    else if valid (.obj cur) = false then
      -- _validate_schema raised; caught at line 502, ConfigError raised
      ⟨true, backup, fs, false⟩
    else
      let sr := saveToFile valid cur fs saveFailAt saveCleanupFails
      if sr.2 = .okRes then ⟨false, backup, sr.1, true⟩
      else ⟨true, backup, sr.1, false⟩

/-- Success path of `_load` (config.py lines 443-449): the parsed on-disk
document is validated, then `self._config = deep_merge(self._config,
loaded_config)`.  Note: the merged result itself is not re-validated. -/
def loadMergeStep (valid : JVal → Bool) (defaults loaded : JObj) :
    Except Unit JObj :=
  if valid (.obj loaded) = true then .ok (deepMerge defaults loaded)
  else .error ()

/-- Source: `JsonConfigProvider.update` (config.py lines 593-598).  Returns
(raised-or-new-config, `self._config` afterwards, the caller's `config`
argument afterwards).  The third component is the argument unchanged:
`deep_merge` deep-copies both inputs and writes only into its fresh
`result`, so the source never mutates the caller's dictionary. -/
def updateRun (valid : JVal → Bool) (cur incoming : JObj) :
    Except Unit JObj × JObj × JObj :=
  let merged := deepMerge cur incoming
  if valid (.obj merged) = true then (.ok merged, merged, incoming)
  else (.error (), cur, incoming)

/-- Fields of a `FileLock` relevant to `release` (config.py lines 268-304):
`is_locked`, whether `self.lock_file` is an open handle, and whether the
lock file still exists on disk. -/
structure LockState where
  isLocked : Bool
  fileOpen : Bool
  fileOnDisk : Bool
deriving DecidableEq

/-- Failure oracles for the OS calls made during `release`: unlocking,
closing the descriptor, unlinking the lock file.  The source swallows all
three kinds of error (lines 277-291, 300-304). -/
structure ReleaseEnv where
  unlockFails : Bool
  closeFails : Bool
  unlinkFails : Bool
deriving DecidableEq

/-- Source: `FileLock._safe_remove_lock_file` (config.py lines 298-304):
unlink if the file exists, ignoring `OSError`/`IOError`/`PermissionError`. -/
def safeRemoveLockFile (st : LockState) (e : ReleaseEnv) : LockState :=
  if st.fileOnDisk && !e.unlinkFails then ⟨st.isLocked, st.fileOpen, false⟩
  else st

/-- Source: `FileLock.release` (config.py lines 268-296).  Early return when
not locked; otherwise best-effort unlock (errors swallowed), close the
handle (errors swallowed, `lock_file = None` regardless), remove the lock
file, and clear `is_locked`.  The `Except` result makes "never raises"
expressible: every control path of the source ends in a normal return. -/
def releaseRun (st : LockState) (e : ReleaseEnv) : Except Unit LockState :=
  if st.isLocked then
    -- unlock attempt: any IOError/OSError swallowed (lines 274-285)
    -- close attempt: errors swallowed, lock_file set to None (287-292)
    let st1 : LockState := ⟨true, false, st.fileOnDisk⟩
    let st2 := safeRemoveLockFile st1 e
    .ok ⟨false, st2.fileOpen, st2.fileOnDisk⟩
  else .ok st

/-- Python whitespace as stripped by `str.strip()` (ASCII range). -/
def isPySpace (c : Char) : Bool :=
  c = ' ' || c = '\t' || c = '\n' || c = '\r' || c = '\x0b' || c = '\x0c'

/-- Python `str.strip()` over the character list. -/
def pyStrip (s : List Char) : List Char :=
  ((s.dropWhile isPySpace).reverse.dropWhile isPySpace).reverse

/-- Python `s.split(':', 1)` when a colon is present: the part before the
first colon and everything after it. -/
def splitColon : List Char → Option (List Char × List Char)
  | [] => none
  | c :: cs =>
    if c = ':' then some ([], cs)
    else
      match splitColon cs with
      | some ab => some (c :: ab.1, ab.2)
      | none => none

/-- Python `str.isdigit()` for ASCII content: nonempty and all digits. -/
def isDigits (s : List Char) : Bool :=
  !s.isEmpty && s.all (fun c => c.isDigit)

/-- Numeric value of a digit string, as Python `int()` parses it. -/
def parseDigits (s : List Char) : Nat :=
  s.foldl (fun a c => a * 10 + (c.toNat - 48)) 0

/-- Observable environment of one `_is_stale_lock` probe (config.py lines
185-266): whether the lock file exists, whether `os.path.getmtime` raises,
the file age `time.time() - mtime`, whether opening/reading the lock file
body raises, the raw body text, and for each pid whether `os.kill(pid, 0)`
raises (`OSError`/`ProcessLookupError`), i.e. the process is gone. -/
structure StaleEnv where
  lockExists : Bool
  mtimeErr : Bool
  age : Int
  readErr : Bool
  body : List Char
  procDeadAt : Nat → Bool

/-- Source: `FileLock._is_stale_lock` (config.py lines 185-266), POSIX
branch.  Outer `except (OSError, IOError)` (line 264) returns False; the
inner `except (OSError, IOError, ValueError)` (line 260) around the body
read returns True; a non-numeric pid returns True (line 209); a live
process returns False on both uid branches (lines 240-248); a dead process
returns False for a different numeric uid, else True (lines 249-258). -/
def isStaleLock (staleT : Int) (myUid : Nat) (e : StaleEnv) : Bool :=
  if e.lockExists = false then false
  else if e.mtimeErr = true then false
  else if e.age ≤ staleT then false
  else if e.readErr = true then true
  else
    let info := pyStrip e.body
    let pr :=
      match splitColon info with
      | some pq => pq
      | none => (info, ['0'])
    if isDigits pr.1 = false then true
    else if e.procDeadAt (parseDigits pr.1) = false then false
    else if isDigits pr.2 = true then
      if parseDigits pr.2 ≠ myUid then false else true
    else true

/-- Sample schema-validation predicate, realizable as the JSON schema
`\x7b"properties": \x7b"k": \x7b"type": "string"\x7d\x7d\x7d`: documents
whose top-level `"k"` holds a number are rejected. -/
def schemaNoNumK : JVal → Bool
  | .obj o =>
    match objLookup o "k" with
    | some (.num _) => false
    | _ => true
  | _ => true

/-! Helper lemmas about the association-list primitives. -/

theorem objLookup_objInsert_self (o : JObj) (k : String) (v : JVal) :
    objLookup (objInsert o k v) k = some v := by
  match o with
  | .nil => simp [objInsert, objLookup]
  | .cons k2 w tl =>
    by_cases h : k2 = k
    · simp [objInsert, h, objLookup]
    · simp only [objInsert, if_neg h, objLookup]
      exact objLookup_objInsert_self tl k v

theorem objInsert_eq_self (o : JObj) (k : String) (v : JVal)
    (h : objLookup o k = some v) : objInsert o k v = o := by
  match o with
  | .nil => simp [objLookup] at h
  | .cons k2 w tl =>
    by_cases hk : k2 = k
    · rw [objLookup, if_pos hk] at h
      rw [objInsert, if_pos hk]
      exact congrArg (fun x => JObj.cons k2 x tl) (Option.some.inj h).symm
    · rw [objLookup, if_neg hk] at h
      rw [objInsert, if_neg hk, objInsert_eq_self tl k v h]

theorem entriesIn_extend (o base : JObj) (k : String) (v : JVal)
    (he : entriesIn o base = true) (hk : objHasKey o k = false) :
    entriesIn o (.cons k v base) = true := by
  match o with
  | .nil => simp [entriesIn]
  | .cons k2 v2 tl =>
    simp only [entriesIn, Bool.and_eq_true, beq_iff_eq] at he
    simp only [objHasKey, objLookup, Option.isSome] at hk
    by_cases h2 : k2 = k
    · rw [if_pos h2] at hk
      simp at hk
    · rw [if_neg h2] at hk
      have hk2 : objHasKey tl k = false := by
        simpa [objHasKey, Option.isSome] using hk
      simp only [entriesIn, Bool.and_eq_true, beq_iff_eq]
      constructor
      · rw [objLookup, if_neg (fun hkk => h2 hkk.symm)]
        exact he.1
      · exact entriesIn_extend tl base k v he.2 hk2

theorem entriesIn_self (o : JObj) (hw : wfO o = true) : entriesIn o o = true := by
  match o with
  | .nil => simp [entriesIn]
  | .cons k v tl =>
    simp only [wfO, Bool.and_eq_true, Bool.not_eq_true'] at hw
    simp only [entriesIn, Bool.and_eq_true, beq_iff_eq]
    constructor
    · rw [objLookup, if_pos rfl]
    · exact entriesIn_extend tl tl k v (entriesIn_self tl hw.2) hw.1.1

theorem wfV_obj_iff (o : JObj) : wfV (.obj o) = wfO o := by
  rw [wfV]

/-- Folding an object `u` into a `base` that already contains every entry
of `u` leaves `base` unchanged.  This is the engine behind deep-merge
idempotence; `wfO u` supplies the pairwise-distinct-keys property that
Python dictionaries enjoy by construction. -/
theorem deepMerge_absorb (u base : JObj) (hw : wfO u = true)
    (he : entriesIn u base = true) : deepMerge base u = base := by
  match u with
  | .nil => rw [deepMerge]
  | .cons k v tl =>
    simp only [wfO, Bool.and_eq_true, Bool.not_eq_true'] at hw
    simp only [entriesIn, Bool.and_eq_true, beq_iff_eq] at he
    have hkey : deepMergeKey base k v = base := by
      cases hv : v with
      | null => exact objInsert_eq_self base k _ (hv ▸ he.1)
      | bool b => exact objInsert_eq_self base k _ (hv ▸ he.1)
      | num n => exact objInsert_eq_self base k _ (hv ▸ he.1)
      | str s => exact objInsert_eq_self base k _ (hv ▸ he.1)
      | arr a => exact objInsert_eq_self base k _ (hv ▸ he.1)
      | obj vo =>
        have hwvo : wfO vo = true := by
          have := hw.1.2
          rw [hv] at this
          simpa [wfV] using this
        have hvo : deepMerge vo vo = vo :=
          deepMerge_absorb vo vo hwvo (entriesIn_self vo hwvo)
        have hlk : objLookup base k = some (JVal.obj vo) := hv ▸ he.1
        rw [deepMergeKey, hlk]
        show objInsert base k (.obj (deepMerge vo vo)) = base
        rw [hvo]
        exact objInsert_eq_self base k _ hlk
    rw [deepMerge, hkey]
    exact deepMerge_absorb tl base hw.2 he.2
termination_by sizeOf u
decreasing_by
  all_goals try subst hv
  all_goals simp_wf
  all_goals omega

/-! Lemmas about dotted-path get and set. -/

theorem getGo_setGo (ps : List String) (d : JObj) (last : String)
    (v dflt : JVal) :
    getGo (.obj (setGo d ps last v)) ps last dflt = v := by
  match ps with
  | [] =>
    simp [setGo, getGo, objLookup_objInsert_self]
  | p :: ps2 =>
    cases h : objLookup d p with
    | none =>
      simp only [setGo, h, getGo, objLookup_objInsert_self]
      exact getGo_setGo ps2 .nil last v dflt
    | some w =>
      cases w <;>
        · simp only [setGo, h, getGo, objLookup_objInsert_self]
          exact getGo_setGo ps2 _ last v dflt

theorem configGet_configSet (d : JObj) (key : String) (v dflt : JVal) :
    configGet (configSet d key v) key dflt = v := by
  simp only [configGet, configSet]
  exact getGo_setGo _ d _ v dflt

theorem getGo_eq_specPathLookup (ps : List String) (c : JVal) (last : String)
    (dflt : JVal) :
    getGo c ps last dflt = (specPathLookup c (ps ++ [last])).getD dflt := by
  match ps with
  | [] =>
    cases c with
    | obj o =>
      simp only [getGo, List.nil_append, specPathLookup]
      cases objLookup o last <;> simp [specPathLookup]
    | null => simp [getGo, specPathLookup]
    | bool b => simp [getGo, specPathLookup]
    | num n => simp [getGo, specPathLookup]
    | str s => simp [getGo, specPathLookup]
    | arr a => simp [getGo, specPathLookup]
  | p :: ps2 =>
    cases c with
    | obj o =>
      simp only [getGo, List.cons_append, specPathLookup]
      cases objLookup o p with
      | none => simp
      | some w => exact getGo_eq_specPathLookup ps2 w last dflt
    | null => simp [getGo, specPathLookup]
    | bool b => simp [getGo, specPathLookup]
    | num n => simp [getGo, specPathLookup]
    | str s => simp [getGo, specPathLookup]
    | arr a => simp [getGo, specPathLookup]

theorem splitDots_ne_nil (cs : List Char) : splitDots cs ≠ [] := by
  match cs with
  | [] => simp [splitDots]
  | c :: cs2 =>
    by_cases h : c = '.'
    · simp [splitDots, h]
    · simp only [splitDots, if_neg h]
      cases hs : splitDots cs2 <;> simp

theorem splitKey_ne_nil (key : String) : splitKey key ≠ [] := by
  simp only [splitKey, ne_eq, List.map_eq_nil_iff]
  exact splitDots_ne_nil key.data

theorem initLast_append (l : List String) (hl : l ≠ []) :
    (initLast l).1 ++ [(initLast l).2] = l := by
  match l with
  | [] => exact absurd rfl hl
  | [x] => simp [initLast]
  | x :: y :: t =>
    have ih := initLast_append (y :: t) (by simp)
    simp only [initLast, List.cons_append]
    rw [ih]

/-! Lemmas about the lock-file body parsing and serialized output shape. -/

theorem splitColon_append (xs ys : List Char) (h : ∀ c ∈ xs, c ≠ ':') :
    splitColon (xs ++ ':' :: ys) = some (xs, ys) := by
  match xs with
  | [] => simp [splitColon]
  | c :: cs =>
    have hc : c ≠ ':' := h c (by simp)
    have ih := splitColon_append cs ys (fun c2 hm => h c2 (by simp [hm]))
    simp [splitColon, hc, ih]

theorem digits_no_colon (xs : List Char) (h : isDigits xs = true) :
    ∀ c ∈ xs, c ≠ ':' := by
  intro c hc hcolon
  simp only [isDigits, Bool.and_eq_true, List.all_eq_true] at h
  have := h.2 c hc
  rw [hcolon] at this
  simp at this

theorem data_getLast_append_brace (s : String) :
    (s ++ "\x7d").data.getLast? = some '\x7d' := by
  rw [String.data_append]
  exact List.getLast?_concat _

/-! Claim theorems. -/

/-- C7 (confirmed): for every document, every string key (empty,
single-segment or multi-segment) and every default, `get` is a total
function (so it never raises) whose result is exactly the spec-side path
descent: the value at the dotted path when every segment resolves through
mappings, and the supplied default as soon as any segment is missing or
any intermediate value is not a mapping. -/
theorem c7_get_total_refines (doc : JObj) (key : String) (dflt : JVal) :
    configGet doc key dflt
      = (specPathLookup (.obj doc) (splitKey key)).getD dflt := by
  simp only [configGet]
  rw [getGo_eq_specPathLookup, initLast_append (splitKey key) (splitKey_ne_nil key)]

/-- C8 (confirmed): `release` never raises (every control path of the
source returns normally, all unlock/close/unlink errors being swallowed),
always leaves the lock in the unlocked state, and is idempotent: releasing
an already-released (or never-acquired) lock returns the state unchanged,
for every combination of OS failures on either call. -/
theorem c8_release_idempotent_no_raise (st : LockState) (e e2 : ReleaseEnv) :
    ∃ st2, releaseRun st e = Except.ok st2 ∧ st2.isLocked = false ∧
      releaseRun st2 e2 = Except.ok st2 := by
  cases hl : st.isLocked with
  | false =>
    refine ⟨st, ?_, hl, ?_⟩ <;> simp [releaseRun, hl]
  | true =>
    refine ⟨⟨false, (safeRemoveLockFile ⟨true, false, st.fileOnDisk⟩ e).fileOpen,
      (safeRemoveLockFile ⟨true, false, st.fileOnDisk⟩ e).fileOnDisk⟩, ?_, rfl, ?_⟩
    · simp [releaseRun, hl]
    · simp [releaseRun]

/-- C9 (confirmed): deep-merge idempotence.  For every hierarchical
document `d` (well-formed in the sense of Python dicts: pairwise distinct
keys at every level), `deep_merge(d, d) = d`. -/
theorem c9_deep_merge_idem (d : JObj) (h : wfO d = true) :
    deepMerge d d = d :=
  deepMerge_absorb d d h (entriesIn_self d h)

/-- Witness for C9 at a concrete nested document. -/
theorem c9_deep_merge_idem_witness :
    wfO (JObj.cons "a" (JVal.obj (JObj.cons "b" (JVal.num 1) JObj.nil))
      (JObj.cons "c" (JVal.num 2) JObj.nil)) = true ∧
    deepMerge
      (JObj.cons "a" (JVal.obj (JObj.cons "b" (JVal.num 1) JObj.nil))
        (JObj.cons "c" (JVal.num 2) JObj.nil))
      (JObj.cons "a" (JVal.obj (JObj.cons "b" (JVal.num 1) JObj.nil))
        (JObj.cons "c" (JVal.num 2) JObj.nil))
      = (JObj.cons "a" (JVal.obj (JObj.cons "b" (JVal.num 1) JObj.nil))
        (JObj.cons "c" (JVal.num 2) JObj.nil)) :=
  ⟨by decide, c9_deep_merge_idem _ (by decide)⟩

/-- C10 (confirmed): `update` is atomic with respect to validation
failure.  When the deep-merged result violates the schema, `update`
raises and `self._config` is left exactly as it was (so `get`/`get_all`
observe no change), and the caller's `partial` dictionary comes through
unchanged (the source builds the merge out of deep copies and never
writes into its argument). -/
theorem c10_update_atomic (valid : JVal → Bool) (cur inc : JObj)
    (h : valid (.obj (deepMerge cur inc)) = false) :
    updateRun valid cur inc = (Except.error (), cur, inc) := by
  simp [updateRun, h]

/-- Witness for C10: a concrete update whose merged result the sample
schema rejects leaves the (empty) document in place. -/
theorem c10_update_atomic_witness :
    schemaNoNumK (.obj (deepMerge JObj.nil (JObj.cons "k" (JVal.num 1) JObj.nil))) = false ∧
    updateRun schemaNoNumK JObj.nil (JObj.cons "k" (JVal.num 1) JObj.nil)
      = (Except.error (), JObj.nil, JObj.cons "k" (JVal.num 1) JObj.nil) :=
  ⟨by decide, c10_update_atomic schemaNoNumK JObj.nil _ (by decide)⟩

/-- C6 counterexample: the claim quantifies over every provider state, but
from the state `\x7b"a": \x7b"b": \x7b"d": 2\x7d\x7d\x7d` running
`set("a.b.c", 1)` leaves the sibling `"d"` in place, so `get("a.b")` is
`\x7b"d": 2, "c": 1\x7d`, which is not Python-equal to `\x7b"c": 1\x7d`;
and `get("a.x", "fallback")` returns the stored value, not the fallback,
when the prior state already holds `"a.x"`. -/
theorem c6_cex :
    pyEqV
      (configGet
        (configSet
          (JObj.cons "a" (JVal.obj (JObj.cons "b"
            (JVal.obj (JObj.cons "d" (JVal.num 2) JObj.nil)) JObj.nil)) JObj.nil)
          "a.b.c" (JVal.num 1))
        "a.b" JVal.null)
      (JVal.obj (JObj.cons "c" (JVal.num 1) JObj.nil)) = false ∧
    configGet
      (configSet (JObj.cons "a" (JVal.obj (JObj.cons "x" (JVal.num 5) JObj.nil)) JObj.nil)
        "a.b.c" (JVal.num 1))
      "a.x" (JVal.str "fallback") = JVal.num 5 := by
  constructor <;> decide

/-- C6 (corrected): the set-then-get round trip `get(k) = v` after
`set(k, v)` holds for every prior provider state and every dotted key; the
exact equalities `get("a.b") == \x7b"c": 1\x7d` and `get("a.x", "fallback")
== "fallback"` hold from the empty document (rather than from every prior
state, which the counterexample refutes); and `set` never fails: when an
intermediate segment holds a non-mapping value (here `"a"` holding `5`),
`set` overwrites it with a fresh mapping and proceeds. -/
theorem c6_dotted_path_amended :
    (∀ (d : JObj) (key : String) (v dflt : JVal),
      configGet (configSet d key v) key dflt = v) ∧
    (configGet (configSet JObj.nil "a.b.c" (JVal.num 1)) "a.b.c" JVal.null
        = JVal.num 1 ∧
      configGet (configSet JObj.nil "a.b.c" (JVal.num 1)) "a.b" JVal.null
        = JVal.obj (JObj.cons "c" (JVal.num 1) JObj.nil) ∧
      configGet (configSet JObj.nil "a.b.c" (JVal.num 1)) "a.x" (JVal.str "fallback")
        = JVal.str "fallback") ∧
    configGet
      (configSet (JObj.cons "a" (JVal.num 5) JObj.nil) "a.b" (JVal.num 7))
      "a.b" JVal.null = JVal.num 7 := by
  refine ⟨configGet_configSet, ⟨?_, ?_, ?_⟩, ?_⟩ <;> decide

/-- C2 counterexample: a failure of `tempfile.mkstemp` (config.py line
511) occurs after validation and before the rename, yet it sits outside
the `try` block, so `_save_to_file` propagates the raw `OSError` instead
of raising `ConfigIOError` (it is only the public `save()` that rewraps
it).  The destination is still untouched and no temp file exists. -/
theorem c2_cex :
    saveToFile (fun _ => true) JObj.nil ⟨some "old", false⟩ (some .atMkstemp) false
      = (⟨some "old", false⟩, .errOsRaw) ∧
    SaveOutcome.errOsRaw ≠ SaveOutcome.errCfgWrite := by
  exact ⟨rfl, by decide⟩

/-- C2 (corrected): for every failure after the temporary file has been
created (during the write, the fsync or the rename), the destination file
keeps its full previous content and `ConfigIOError` is raised, while the
removal of the temporary file is best-effort: the handler attempts
`os.unlink` and swallows its errors, so the temp file is deleted exactly
when that unlink succeeds and survives when it fails.  A failure of
`mkstemp` itself also leaves the destination untouched and no temp file
behind, but propagates as a plain OS error from `_save_to_file`
(rewrapped into `ConfigIOError` only by the public `save()`). -/
theorem c2_save_failure_amended (valid : JVal → Bool) (doc : JObj)
    (dest : Option String) (step : SaveStep) (cleanupFails : Bool)
    (hv : valid (.obj doc) = true) :
    (step ≠ SaveStep.atMkstemp →
      saveToFile valid doc ⟨dest, false⟩ (some step) cleanupFails
        = (⟨dest, cleanupFails⟩, .errCfgWrite)) ∧
    (step = SaveStep.atMkstemp →
      saveToFile valid doc ⟨dest, false⟩ (some step) cleanupFails
        = (⟨dest, false⟩, .errOsRaw)) := by
  cases step <;> simp [saveToFile, hv]

/-- Witness for C2 (amended) at a rename failure over an existing file
whose best-effort temp cleanup also fails: the destination still holds the
old content, `ConfigIOError` is still raised, and the temp file remains. -/
theorem c2_save_failure_amended_witness :
    saveToFile (fun _ => true) JObj.nil ⟨some "old", false⟩ (some .atReplace) true
      = (⟨some "old", true⟩, .errCfgWrite) :=
  (c2_save_failure_amended (fun _ => true) JObj.nil (some "old") .atReplace
    true rfl).1 (by decide)

/-- C5 counterexample: `json.dump(config, f, indent=2, ensure_ascii=False,
sort_keys=True)` writes no trailing newline; a successful save of the
empty document writes exactly the two bytes of an empty JSON object, whose
last character is the closing brace, not a newline. -/
theorem c5_cex :
    saveToFile (fun _ => true) JObj.nil ⟨none, false⟩ none false
      = (⟨some "\x7b\x7d", false⟩, .okRes) ∧
    "\x7b\x7d".data.getLast? = some '\x7d' ∧ '\x7d' ≠ '\n' := by
  refine ⟨rfl, by decide, by decide⟩

/-- C5 (corrected): every successful save writes exactly the UTF-8
serialization `pyDump doc` — 2-space indentation, keys recursively
sorted — and that serialization ends with the closing brace of the
top-level object: there is no trailing newline. -/
theorem c5_saved_bytes_amended (valid : JVal → Bool) (doc : JObj) (fs : Fs)
    (cleanupFails : Bool) (hv : valid (.obj doc) = true) :
    saveToFile valid doc fs none cleanupFails
      = (⟨some (pyDump doc), false⟩, .okRes) ∧
    (pyDump doc).data.getLast? = some '\x7d' := by
  constructor
  · simp [saveToFile, hv]
  · show (pyDumpV 0 (.obj (sortedO doc))).data.getLast? = some '\x7d'
    cases h : sortedO doc with
    | nil => rw [pyDumpV]; decide
    | cons k v t =>
      rw [pyDumpV]
      exact data_getLast_append_brace _

/-- Witness for C5 (amended) on a one-entry document. -/
theorem c5_saved_bytes_amended_witness :
    saveToFile (fun _ => true) (JObj.cons "k" (JVal.num 3) JObj.nil)
      ⟨none, false⟩ none false
      = (⟨some (pyDump (JObj.cons "k" (JVal.num 3) JObj.nil)), false⟩, .okRes) ∧
    (pyDump (JObj.cons "k" (JVal.num 3) JObj.nil)).data.getLast? = some '\x7d' :=
  c5_saved_bytes_amended (fun _ => true) (JObj.cons "k" (JVal.num 3) JObj.nil)
    ⟨none, false⟩ false rfl

/-- C3 counterexample: `set` performs no validation at all (config.py
lines 550-566), so one public `set` call moves a provider from a
schema-valid document to a schema-invalid one without any error.  The
predicate `schemaNoNumK` is realizable as the JSON schema requiring
property `"k"` to be a string. -/
theorem c3_cex :
    schemaNoNumK (.obj JObj.nil) = true ∧
    schemaNoNumK (.obj (configSet JObj.nil "k" (JVal.num 1))) = false := by
  constructor <;> decide

/-- C3 (corrected): the validation invariant holds at `update` (a normal
return means the new document validates) and at save (`_save_to_file`
validates before touching the filesystem and a schema-invalid document is
rejected with nothing written); but `set` does not validate (the
counterexample), and `_load` validates only the document read from disk,
then stores its deep-merge into the defaults without re-validating the
merged result. -/
theorem c3_validation_gates_amended (valid : JVal → Bool)
    (cur inc m defaults loaded : JObj) (fs : Fs) (failAt : Option SaveStep)
    (cleanupFails : Bool) :
    ((updateRun valid cur inc).1 = Except.ok m → valid (.obj m) = true) ∧
    (valid (.obj cur) = false →
      saveToFile valid cur fs failAt cleanupFails = (fs, .errValid)) ∧
    (loadMergeStep valid defaults loaded = Except.ok m →
      valid (.obj loaded) = true ∧ m = deepMerge defaults loaded) := by
  refine ⟨?_, ?_, ?_⟩
  · intro h
    by_cases hv : valid (.obj (deepMerge cur inc)) = true
    · simp only [updateRun, hv, if_pos] at h
      cases h
      exact hv
    · simp only [updateRun, Bool.not_eq_true] at hv
      simp [updateRun, hv] at h
  · intro h
    simp [saveToFile, h]
  · intro h
    by_cases hv : valid (.obj loaded) = true
    · simp only [loadMergeStep, hv, if_pos] at h
      cases h
      exact ⟨hv, rfl⟩
    · simp [loadMergeStep, hv] at h

/-- Witness for C3 (amended): a successful update of the sample schema
yields a validating document, and saving an invalid document is refused. -/
theorem c3_validation_gates_amended_witness :
    schemaNoNumK (.obj (JObj.cons "a" (JVal.num 2) JObj.nil)) = true ∧
    saveToFile schemaNoNumK (JObj.cons "k" (JVal.num 1) JObj.nil)
      ⟨none, false⟩ none false = (⟨none, false⟩, .errValid) := by
  constructor
  · exact (c3_validation_gates_amended schemaNoNumK JObj.nil
      (JObj.cons "a" (JVal.num 2) JObj.nil) (JObj.cons "a" (JVal.num 2) JObj.nil)
      JObj.nil JObj.nil ⟨none, false⟩ none false).1 (by rfl)
  · exact (c3_validation_gates_amended schemaNoNumK
      (JObj.cons "k" (JVal.num 1) JObj.nil) JObj.nil JObj.nil
      JObj.nil JObj.nil ⟨none, false⟩ none false).2.1 (by decide)

/-- C4 counterexample: with the corrupt file present, a failing backup
copy, valid defaults and a write that would succeed, `_attempt_recovery`
raises `ConfigError` and never resets the disk to defaults — the backup
step (1) is inside the same `try` as steps (2)/(3) (config.py lines
487-504), so its failure does block recovery, contradicting both halves
of the claim. -/
theorem c4_cex :
    attemptRecovery (fun _ => true) (JObj.cons "a" JVal.null JObj.nil)
        ⟨some "bad", false⟩ true true none false
      = ⟨true, false, ⟨some "bad", false⟩, false⟩ ∧
    (saveToFile (fun _ => true) (JObj.cons "a" JVal.null JObj.nil)
        ⟨some "bad", false⟩ none false).2 = .okRes := by
  exact ⟨rfl, rfl⟩

/-- C4 (corrected): `_attempt_recovery` raises `ConfigError` exactly when
the backup copy fails (for an existing corrupt file), or when there are
defaults and their validation or atomic write fails; in particular a
backup failure aborts recovery — steps (2)/(3) never run, the disk is
left untouched, and no backup is recorded. -/
theorem c4_recovery_amended (valid : JVal → Bool) (cur : JObj) (fs : Fs)
    (oe cf : Bool) (sf : Option SaveStep) (scf : Bool) :
    ((attemptRecovery valid cur fs oe cf sf scf).raisedCfgErr = true ↔
      ((oe = true ∧ cf = true) ∨
       (cur ≠ JObj.nil ∧ (valid (.obj cur) = false ∨
         (saveToFile valid cur fs sf scf).2 ≠ SaveOutcome.okRes)))) ∧
    (oe = true → cf = true →
      (attemptRecovery valid cur fs oe cf sf scf).resetDone = false ∧
      (attemptRecovery valid cur fs oe cf sf scf).fsAfter = fs ∧
      (attemptRecovery valid cur fs oe cf sf scf).backupMade = false) := by
  have hrec : attemptRecovery valid cur fs oe cf sf scf =
      if oe && cf then ⟨true, false, fs, false⟩
      else if cur = JObj.nil then ⟨false, oe, fs, false⟩
      else if valid (.obj cur) = false then ⟨true, oe, fs, false⟩
      else if (saveToFile valid cur fs sf scf).2 = SaveOutcome.okRes then
        ⟨false, oe, (saveToFile valid cur fs sf scf).1, true⟩
      else ⟨true, oe, (saveToFile valid cur fs sf scf).1, false⟩ := rfl
  constructor
  · rw [hrec]
    by_cases h1 : (oe && cf) = true
    · rw [if_pos h1]
      simp only [Bool.and_eq_true] at h1
      simp [h1.1, h1.2]
    · have h1x : oe = false ∨ cf = false := by
        cases oe <;> cases cf <;> simp_all
      rw [if_neg h1]
      by_cases hc : cur = JObj.nil
      · rw [if_pos hc]
        rcases h1x with h | h <;> simp [hc, h]
      · rw [if_neg hc]
        by_cases hv : valid (.obj cur) = false
        · rw [if_pos hv]
          simp [hc, hv]
        · have hv2 : valid (.obj cur) = true := by simp_all
          rw [if_neg hv]
          by_cases hs : (saveToFile valid cur fs sf scf).2 = SaveOutcome.okRes
          · rw [if_pos hs]
            rcases h1x with h | h <;> simp [hc, hv2, hs, h]
          · rw [if_neg hs]
            simp [hc, hv2, hs]
  · intro ho hcf
    have hoc : (oe && cf) = true := by rw [ho, hcf]; rfl
    simp [hrec, hoc]

/-- Witness for C4 (amended): concrete instantiation of the
backup-failure clause. -/
theorem c4_recovery_amended_witness :
    (attemptRecovery (fun _ => true) (JObj.cons "a" JVal.null JObj.nil)
      ⟨some "bad", false⟩ true true none false).resetDone = false ∧
    (attemptRecovery (fun _ => true) (JObj.cons "a" JVal.null JObj.nil)
      ⟨some "bad", false⟩ true true none false).fsAfter = ⟨some "bad", false⟩ ∧
    (attemptRecovery (fun _ => true) (JObj.cons "a" JVal.null JObj.nil)
      ⟨some "bad", false⟩ true true none false).backupMade = false :=
  (c4_recovery_amended (fun _ => true) (JObj.cons "a" JVal.null JObj.nil)
    ⟨some "bad", false⟩ true true none false).2 rfl rfl

/-- C1 counterexample: with the lock file present, age 301 > 300 =
stale_timeout, and the body read raising an OS error, `_is_stale_lock`
returns True — the inner `except (OSError, IOError, ValueError)` handler
(config.py lines 260-262) treats a probe error as stale — although the
owning process was never proven dead and the claim says any probing error
must yield "not stale". -/
theorem c1_stale_cex :
    isStaleLock 300 1000 ⟨true, false, 301, true, [], fun _ => false⟩ = true ∧
    (⟨true, false, 301, true, [], fun _ => false⟩ : StaleEnv).readErr = true ∧
    (⟨true, false, 301, true, [], fun _ => false⟩ : StaleEnv).procDeadAt 12345
      = false := by
  refine ⟨by decide, rfl, rfl⟩

/-- C1 (corrected): a lock is reported stale only if the file exists, the
existence/age check raised no OS error, and the age exceeds
`stale_timeout`; beyond that, a failure to read the body is treated as
stale (contrary to the original claim); and for a well-formed numeric body
`pid:uid` the lock is stale exactly when the recorded process is proven
dead and the recorded uid equals the prober's uid.  Unexpected OS errors
are treated as "not stale" only in the existence/age phase (outer
handler, config.py line 264). -/
theorem c1_stale_amended (staleT : Int) (myUid : Nat) (e : StaleEnv) :
    (isStaleLock staleT myUid e = true →
      e.lockExists = true ∧ e.mtimeErr = false ∧ staleT < e.age) ∧
    (e.lockExists = true → e.mtimeErr = false → staleT < e.age →
      e.readErr = true → isStaleLock staleT myUid e = true) ∧
    (∀ pidCh uidCh : List Char, isDigits pidCh = true → isDigits uidCh = true →
      pyStrip e.body = pidCh ++ ':' :: uidCh → e.readErr = false →
      (isStaleLock staleT myUid e = true ↔
        (e.lockExists = true ∧ e.mtimeErr = false ∧ staleT < e.age ∧
         e.procDeadAt (parseDigits pidCh) = true ∧
         parseDigits uidCh = myUid))) := by
  refine ⟨?_, ?_, ?_⟩
  · intro h
    by_cases hL : e.lockExists = false
    · rw [isStaleLock, if_pos hL] at h
      exact absurd h (by simp)
    · by_cases hM : e.mtimeErr = true
      · rw [isStaleLock, if_neg hL, if_pos hM] at h
        exact absurd h (by simp)
      · by_cases hA : e.age ≤ staleT
        · rw [isStaleLock, if_neg hL, if_neg hM, if_pos hA] at h
          exact absurd h (by simp)
        · exact ⟨by simpa using hL, by simpa using hM, by omega⟩
  · intro hL hM hA hR
    rw [isStaleLock, if_neg (by simp [hL]), if_neg (by simp [hM]),
      if_neg (by omega), if_pos hR]
  · intro pidCh uidCh hdp hdu hsplit hre
    have hsc : splitColon (pyStrip e.body) = some (pidCh, uidCh) := by
      rw [hsplit]
      exact splitColon_append pidCh uidCh (digits_no_colon pidCh hdp)
    by_cases hL : e.lockExists = false
    · rw [isStaleLock, if_pos hL]
      simp [hL]
    · have hL2 : e.lockExists = true := by simpa using hL
      by_cases hM : e.mtimeErr = true
      · rw [isStaleLock, if_neg hL, if_pos hM]
        simp [hM]
      · have hM2 : e.mtimeErr = false := by simpa using hM
        by_cases hA : e.age ≤ staleT
        · rw [isStaleLock, if_neg hL, if_neg hM, if_pos hA]
          constructor
          · intro hh
            cases hh
          · rintro ⟨_, _, hlt, _, _⟩
            omega
        · have hA2 : staleT < e.age := by omega
          rw [isStaleLock, if_neg hL, if_neg hM, if_neg hA,
            if_neg (by simp [hre])]
          simp only [hsc, hdp]
          by_cases hd : e.procDeadAt (parseDigits pidCh) = false
          · simp [hd, hL2, hM2, hA2]
          · have hd2 : e.procDeadAt (parseDigits pidCh) = true := by
              simpa using hd
            by_cases hu : parseDigits uidCh = myUid
            · simp [hd2, hdu, hu, hL2, hM2, hA2]
            · simp [hd2, hdu, hu, hL2, hM2, hA2]

/-- Witness for C1 (amended): a read error past the age threshold is
reported stale, and a dead same-uid owner past the threshold is reported
stale. -/
theorem c1_stale_amended_witness :
    isStaleLock 300 7 ⟨true, false, 400, true, [], fun _ => false⟩ = true ∧
    isStaleLock 300 7 ⟨true, false, 400, false, ['9', ':', '7'], fun _ => true⟩
      = true := by
  constructor
  · exact (c1_stale_amended 300 7 _).2.1 rfl rfl (by decide) rfl
  · exact ((c1_stale_amended 300 7
        ⟨true, false, 400, false, ['9', ':', '7'], fun _ => true⟩).2.2
      ['9'] ['7'] (by decide) (by decide) (by decide) rfl).mpr
      ⟨rfl, rfl, by decide, rfl, by decide⟩

end CliConfig
